import Mathlib

/-!
Verification of the stb-sys build script (src/stb-sys/build.rs).

The script parses the TARGET triple, classifies it into a platform family,
detects the Android NDK major version, resolves the Apple SDK path, and
assembles two flag sets: clang arguments for the bindings generator and
flags for the C compiler. The definitions below are a shallow embedding of
that logic; panics in the script (which abort the build) are modelled as
`none` or a dedicated abort constructor, and the outcome of the external
`xcrun` process is passed in as an explicit parameter.
-/

namespace StbBuild

/-- The parsed target descriptor (`struct Target` in build.rs). -/
structure Target where
  architecture : String
  vendor : String
  system : String
  abi : Option String
deriving DecidableEq, Repr

/-- Splitting a character list on the dash character, keeping empty pieces,
as the Rust call `str::split` with a dash does. `acc` holds the current piece reversed. -/
def splitDashAux : List Char → List Char → List (List Char)
  | [], acc => [acc.reverse]
  | c :: cs, acc =>
    if c = '-' then acc.reverse :: splitDashAux cs []
    else splitDashAux cs (c :: acc)

/-- The token split of the TARGET string from build.rs line 113. -/
def splitDash (s : String) : List String :=
  (splitDashAux s.toList []).map fun l => String.mk l

/-- Descriptor parsing from `main` (build.rs lines 112-129). The `assert!`
on fewer than 3 tokens aborts the build; that abort is modelled as `none`.
Tokens 1-3 become architecture, vendor, system; a 4th token becomes `abi`. -/
def parseTarget (s : String) : Option Target :=
  let target := splitDash s
  if target.length < 3 then
    none
  else
    some {
      architecture := target.getD 0 ""
      vendor := target.getD 1 ""
      system := target.getD 2 ""
      abi := if target.length > 3 then some (target.getD 3 "") else none
    }

/-- Maximal leading digit run of a character list, with the remainder;
models the greedy `\d+` of the version regex. -/
def digitRun : List Char → List Char × List Char
  | [] => ([], [])
  | c :: cs =>
    if c.isDigit then
      let (d, r) := digitRun cs
      (c :: d, r)
    else
      ([], c :: cs)

/-- Digit characters to the number they denote, as `str::parse` computes it
(the model uses `Nat`, so the `u32` overflow panic is out of scope). -/
def digitsToNat (l : List Char) : Nat :=
  l.foldl (fun n c => n * 10 + (c.toNat - '0'.toNat)) 0

/-- Match a literal character sequence at the head of the input, returning
the remainder on success. -/
def dropLit : List Char → List Char → Option (List Char)
  | [], s => some s
  | _ :: _, [] => none
  | p :: ps, c :: cs => if c = p then dropLit ps cs else none

/-- Attempt the regex `Pkg.Revision = (\d+)\.(\d+)\.(\d+)` at the head of
the input (the `.` after `Pkg` matches any character except newline, the
Rust regex default); on success return the first capture group as a number. -/
def revMatchAt (s : List Char) : Option Nat :=
  match s with
  | 'P' :: 'k' :: 'g' :: c :: rest =>
    if c = '\n' then none
    else
      match dropLit "Revision = ".toList rest with
      | none => none
      | some r1 =>
        let (d1, r2) := digitRun r1
        if d1.isEmpty then none
        else
          match r2 with
          | '.' :: r3 =>
            let (d2, r4) := digitRun r3
            if d2.isEmpty then none
            else
              match r4 with
              | '.' :: r5 =>
                let (d3, _) := digitRun r5
                if d3.isEmpty then none else some (digitsToNat d1)
              | _ => none
          | _ => none
  | _ => none

/-- Leftmost match of the revision regex in the text (`Regex::captures`). -/
def findRev : List Char → Option Nat
  | [] => none
  | c :: cs =>
    match revMatchAt (c :: cs) with
    | some n => some n
    | none => findRev cs

/-- Function `ndk_major_version` from build.rs lines 93-109, applied to the contents
of `source.properties`. The `expect` panics (file unreadable is outside
this model; no regex match) abort the build and are modelled as `none`. -/
def ndk_major_version (buf : String) : Option Nat :=
  findRev buf.toList

/-- The three build hosts recognised by `host_tag` (build.rs lines 77-89);
any other host panics at that point, so it has no representative here. -/
inductive HostOs where
  | windows
  | linux
  | macos
deriving DecidableEq, Repr

/-- Function `host_tag` from build.rs lines 77-89. -/
def host_tag : HostOs → String
  | .windows => "windows-x86_64"
  | .linux => "linux-x86_64"
  | .macos => "darwin-x86_64"

/-- Clang arguments the bindgen builder receives in the Android branch of
`main` (build.rs lines 153-170), given the NDK root, the detected major
version and the build host. -/
def androidBindgenFlags (ndk : String) (major : Nat) (host : HostOs) : List String :=
  if major < 22 then
    ["--sysroot=" ++ ndk ++ "/sysroot",
     "-isystem" ++ ndk ++ "/sources/cxx-stl/llvm-libc++/include"]
  else
    ["--sysroot=" ++ ndk ++ "/toolchains/llvm/prebuilt/" ++ host_tag host ++ "/sysroot"]

/-- Flags the cc builder receives in the Android branch of `main`
(build.rs lines 244-258); the source duplicates the bindgen logic. -/
def androidCcFlags (ndk : String) (major : Nat) (host : HostOs) : List String :=
  if major < 22 then
    ["--sysroot=" ++ ndk ++ "/sysroot",
     "-isystem" ++ ndk ++ "/sources/cxx-stl/llvm-libc++/include"]
  else
    ["--sysroot=" ++ ndk ++ "/toolchains/llvm/prebuilt/" ++ host_tag host ++ "/sysroot"]

/-- Whether a character list starts with the given pattern. -/
def isPre : List Char → List Char → Bool
  | [], _ => true
  | _ :: _, [] => false
  | p :: ps, c :: cs => p = c && isPre ps cs

/-- Whether a character list occurs contiguously inside another. -/
def listContainsSub (pat : List Char) : List Char → Bool
  | [] => isPre pat []
  | c :: cs => isPre pat (c :: cs) || listContainsSub pat cs

/-- The Rust method `str::contains` with a string pattern. -/
def containsStr (s pat : String) : Bool :=
  listContainsSub pat.toList s.toList

/-- The SDK-name classification inside `sdk_path` (build.rs lines 277-294);
`none` models the `unreachable!()` panic that aborts the build. -/
def sdkName (target : String) : Option String :=
  if containsStr target "apple-darwin"
      ∨ target = "aarch64-apple-ios-macabi"
      ∨ target = "x86_64-apple-ios-macabi" then
    some "macosx"
  else if target = "x86_64-apple-ios"
      ∨ target = "i386-apple-ios"
      ∨ target = "aarch64-apple-ios-sim" then
    some "iphonesimulator"
  else if target = "aarch64-apple-ios"
      ∨ target = "armv7-apple-ios"
      ∨ target = "armv7s-apple-ios" then
    some "iphoneos"
  else
    none

/-- Outcome of running the external `xcrun` command: it produced stdout
bytes that decode as text, it failed to run (an `std::io::Error` from
`Command::output`), or it produced bytes that are not valid UTF-8. -/
inductive CmdResult where
  | ok (stdout : String)
  | ioFailure
  | nonUtf8
deriving DecidableEq, Repr

/-- How one call of `sdk_path` ends: a resolved path (`Ok`), an error value
returned to the caller (`Err`, which the caller drops with `.ok()`), or a
panic that aborts the whole build. -/
inductive SdkOutcome where
  | resolved (path : String)
  | errReturned
  | abort
deriving DecidableEq, Repr

/-- The Rust method `str::trim_end`: drop trailing whitespace. -/
def trimEnd (s : String) : String :=
  String.mk ((s.toList.reverse.dropWhile fun c => c.isWhitespace).reverse)

/-- Function `sdk_path` from build.rs lines 275-302. The unrecognised-target branch
is `unreachable!()` (abort); a command error propagates with `?` as `Err`;
non-UTF-8 output hits `expect("invalid output from xcrun")` (abort);
otherwise the trimmed stdout is returned. -/
def sdk_path (target : String) (cmd : CmdResult) : SdkOutcome :=
  match sdkName target with
  | none => .abort
  | some _ =>
    match cmd with
    | .ok out => .resolved (trimEnd out)
    | .ioFailure => .errReturned
    | .nonUtf8 => .abort

/-- The caller-side view `sdk_path(&target).ok()` (build.rs lines 177, 262):
`none` at the outer level means the build already aborted, `some none`
means resolution failed recoverably, `some (some p)` is a resolved root. -/
def sdkResolution : SdkOutcome → Option (Option String)
  | .resolved p => some (some p)
  | .errReturned => some none
  | .abort => none

/-- The architecture-target rewrite inside `add_bindgen_root`
(build.rs lines 322-328). -/
def bindgenRootTarget (target : String) : Option String :=
  if target = "aarch64-apple-ios" ∨ target = "x86_64-apple-ios" then
    some target
  else if target = "aarch64-apple-ios-sim" then
    some "arm64-apple-ios14.0.0-simulator"
  else
    none

/-- The `--target=` argument `add_bindgen_root` pushes, when any. -/
def bindgenTargetArgs (target : String) : List String :=
  match bindgenRootTarget target with
  | some t => ["--target=" ++ t]
  | none => []

/-- The `-isysroot` argument pair `add_bindgen_root` pushes, when any. -/
def sdkRootArgs : Option String → List String
  | some p => ["-isysroot", p]
  | none => []

/-- Clang arguments appended by `add_bindgen_root` (build.rs lines 304-341):
the optional `--target=` override, then the optional `-isysroot` pair. -/
def add_bindgen_root (sdkPath : Option String) (target : String) : List String :=
  bindgenTargetArgs target ++ sdkRootArgs sdkPath

/-- Clang arguments added after `add_bindgen_root` in the Apple branch of
`main` (build.rs lines 183-192), keyed on the parsed descriptor. -/
def appleTailFlags (t : Target) : List String :=
  if t.system = "ios" then
    ["-miphoneos-version-min=10.0"] ++
      (if t.abi = some "sim" ∧ t.architecture = "aarch64" then
        ["-mios-simulator-version-min=14.0"]
      else
        [])
  else
    ["-miphoneos-version-min=14.0"]

/-- All clang arguments the bindgen builder receives in the Apple branch of
`main` (build.rs lines 172-193): the unconditional device floor, then
`add_bindgen_root`, then the system-specific tail. `targetStr` is the raw
TARGET string re-read from the environment; `sdk` the `sdk_path(..).ok()`
result. -/
def appleBindgenFlags (t : Target) (targetStr : String) (sdk : Option String) : List String :=
  ["-miphoneos-version-min=10.0"] ++ add_bindgen_root sdk targetStr ++ appleTailFlags t

/-- Flags added by `add_cc_root` (build.rs lines 343-378): the target
rewrite (with an extra `-m64` for the arm64 simulator), version-minimum
flags for the two passthrough targets, the `--target=` flag, then the
optional fused `-isysroot<path>` flag. -/
def add_cc_root (sdkPath : Option String) (target : String) : List String :=
  let pre : List String × Option String :=
    if target = "aarch64-apple-ios" ∨ target = "x86_64-apple-ios" then
      ([], some target)
    else if target = "aarch64-apple-ios-sim" then
      (["-m64"], some "arm64-apple-ios14.0.0-simulator")
    else
      ([], none)
  pre.1 ++
    (match pre.2 with
     | some t =>
       (if t = "x86_64-apple-ios" then ["-mios-simulator-version-min=10.0"]
        else if t = "aarch64-apple-ios" then ["-miphoneos-version-min=10.0"]
        else []) ++ ["--target=" ++ t]
     | none => []) ++
    (match sdkPath with
     | some p => ["-isysroot" ++ p]
     | none => [])

/-- The platform-specific clang arguments for the bindgen builder, from the
first `match target.system` in `main` (build.rs lines 152-195). -/
def bindgenPlatformFlags (t : Target) (targetStr ndk : String) (major : Nat)
    (host : HostOs) (sdk : Option String) : List String :=
  if t.system = "android" ∨ t.system = "androideabi" then
    androidBindgenFlags ndk major host
  else if t.system = "ios" ∨ t.system = "darwin" then
    appleBindgenFlags t targetStr sdk
  else
    []

/-- The platform-specific flags for the cc builder, from the second
`match target.system` in `main` (build.rs lines 243-270). -/
def ccPlatformFlags (t : Target) (targetStr ndk : String) (major : Nat)
    (host : HostOs) (sdk : Option String) : List String :=
  if t.system = "android" ∨ t.system = "androideabi" then
    androidCcFlags ndk major host
  else if t.system = "ios" ∨ t.system = "darwin" then
    add_cc_root sdk targetStr
  else
    []

/-- Externally visible steps the build driver takes. -/
inductive BuildEffect where
  | emitDirective (s : String)
  | writeFile (path content : String)
  | runGenerator (flags : List String)
  | runCompiler (flags : List String)
deriving DecidableEq, Repr

/-- Which effects invoke an external tool. -/
def isToolInvocation : BuildEffect → Bool
  | .runGenerator _ => true
  | .runCompiler _ => true
  | _ => false

/-- The bindings output path `out_dir.join("bindings.rs")`. -/
def bindingsPath (outDir : String) : String :=
  outDir ++ "/bindings.rs"

/-- The effect trace of `main` after descriptor parsing (build.rs lines
131-272): the rerun directive, then — if the static FILES list is empty —
an empty bindings file and an early return; otherwise the generator run,
the bindings write (`generated` stands for the generator output) and the
compiler run. -/
def driverEffects (files : List String) (outDir : String)
    (genFlags compFlags : List String) (generated : String) : List BuildEffect :=
  [.emitDirective "cargo:rerun-if-changed=build.rs"] ++
    (if files.isEmpty then
      [.writeFile (bindingsPath outDir) ""]
    else
      [.runGenerator genFlags,
       .writeFile (bindingsPath outDir) generated,
       .runCompiler compFlags])

/-- The complete Apple target triples of the Rust toolchain that this build
script can be invoked for (system field "ios" or "darwin"). -/
def knownAppleTriples : List String :=
  ["aarch64-apple-ios", "armv7-apple-ios", "armv7s-apple-ios",
   "x86_64-apple-ios", "i386-apple-ios", "aarch64-apple-ios-sim",
   "aarch64-apple-ios-macabi", "x86_64-apple-ios-macabi",
   "x86_64-apple-darwin", "aarch64-apple-darwin"]

/-- The generator-target arguments take one of four concrete shapes. -/
theorem bindgenTargetArgs_cases (s : String) :
    bindgenTargetArgs s = [] ∨
    bindgenTargetArgs s = ["--target=aarch64-apple-ios"] ∨
    bindgenTargetArgs s = ["--target=x86_64-apple-ios"] ∨
    bindgenTargetArgs s = ["--target=arm64-apple-ios14.0.0-simulator"] := by
  unfold bindgenTargetArgs bindgenRootTarget
  by_cases h1 : s = "aarch64-apple-ios" ∨ s = "x86_64-apple-ios"
  · rw [if_pos h1]
    rcases h1 with h | h <;> subst h <;> simp
  · rw [if_neg h1]
    by_cases h2 : s = "aarch64-apple-ios-sim"
    · rw [if_pos h2]; simp
    · rw [if_neg h2]; simp

/-- The Apple tail flags take one of three concrete shapes. -/
theorem appleTailFlags_cases (t : Target) :
    appleTailFlags t = ["-miphoneos-version-min=10.0"] ∨
    appleTailFlags t = ["-miphoneos-version-min=10.0", "-mios-simulator-version-min=14.0"] ∨
    appleTailFlags t = ["-miphoneos-version-min=14.0"] := by
  unfold appleTailFlags
  by_cases h1 : t.system = "ios"
  · rw [if_pos h1]
    by_cases h2 : t.abi = some "sim" ∧ t.architecture = "aarch64"
    · rw [if_pos h2]; right; left; rfl
    · rw [if_neg h2]; left; rfl
  · rw [if_neg h1]; right; right; rfl

/-- The compiler flags of `add_cc_root` without an SDK root take one of four
concrete shapes. -/
theorem add_cc_root_none_cases (s : String) :
    add_cc_root none s = [] ∨
    add_cc_root none s = ["-miphoneos-version-min=10.0", "--target=aarch64-apple-ios"] ∨
    add_cc_root none s = ["-mios-simulator-version-min=10.0", "--target=x86_64-apple-ios"] ∨
    add_cc_root none s = ["-m64", "--target=arm64-apple-ios14.0.0-simulator"] := by
  unfold add_cc_root
  by_cases h1 : s = "aarch64-apple-ios" ∨ s = "x86_64-apple-ios"
  · rcases h1 with h | h <;> subst h <;> simp
  · rw [if_neg h1]
    by_cases h2 : s = "aarch64-apple-ios-sim"
    · rw [if_pos h2]; simp
    · rw [if_neg h2]; simp


/-- C5: splitting on dashes, fewer than 3 tokens aborts parsing
(MalformedDescriptor), exactly 3 tokens bind architecture, vendor, system
with no abi, and 4 tokens additionally bind the abi. -/
theorem parse_target_shape (s a v sys ab : String) :
    ((splitDash s).length < 3 → parseTarget s = none) ∧
    (splitDash s = [a, v, sys] → parseTarget s = some ⟨a, v, sys, none⟩) ∧
    (splitDash s = [a, v, sys, ab] → parseTarget s = some ⟨a, v, sys, some ab⟩) := by
  refine ⟨fun h => ?_, fun h => ?_, fun h => ?_⟩ <;> simp [parseTarget, h]

/-- Witness for C5 at the concrete descriptor "a-b-c-d". -/
theorem parse_target_shape_witness :
    parseTarget "a-b-c-d" = some ⟨"a", "b", "c", some "d"⟩ :=
  (parse_target_shape "a-b-c-d" "a" "b" "c" "d").2.2 (by decide)

/-- C10: a descriptor with 5 or more tokens parses successfully; the record
is built from the first four tokens only, so every later token is
discarded. -/
theorem parse_extra_tokens_discarded (s : String)
    (h : 5 ≤ (splitDash s).length) :
    parseTarget s = some ⟨(splitDash s).getD 0 "", (splitDash s).getD 1 "",
      (splitDash s).getD 2 "", some ((splitDash s).getD 3 "")⟩ := by
  simp only [parseTarget]
  rw [if_neg (by omega), if_pos (by omega)]

/-- Witness for C10 at the concrete descriptor "a-b-c-d-e". -/
theorem parse_extra_tokens_discarded_witness :
    parseTarget "a-b-c-d-e" = some ⟨"a", "b", "c", some "d"⟩ := by
  rw [parse_extra_tokens_discarded "a-b-c-d-e" (by decide)]; decide

/-- C6: NDK version detection on text containing "Pkg.Revision = 21.4.7"
yields 21, on "Pkg.Revision = 23.0.1" yields 23, and on text with no
matching line fails (the fatal `expect`). -/
theorem ndk_major_version_examples :
    ndk_major_version "Pkg.Desc = Android NDK\nPkg.Revision = 21.4.7\n" = some 21 ∧
    ndk_major_version "Pkg.Desc = Android NDK\nPkg.Revision = 23.0.1\n" = some 23 ∧
    ndk_major_version "Pkg.Desc = Android NDK\nPkg.BaseRevision = x\n" = none := by
  decide

/-- C1: for android/androideabi systems, NDK major < 22 puts the sysroot
directly under the NDK root and adds the legacy libc++ include in both flag
sets; major >= 22 puts the sysroot under the host-toolchain prebuilt path;
the two sysroot flags always differ. -/
theorem android_sysroot_flags (t : Target) (targetStr ndk : String)
    (major : Nat) (host : HostOs) (sdk : Option String)
    (h : t.system = "android" ∨ t.system = "androideabi") :
    (major < 22 →
      bindgenPlatformFlags t targetStr ndk major host sdk =
        ["--sysroot=" ++ ndk ++ "/sysroot",
         "-isystem" ++ ndk ++ "/sources/cxx-stl/llvm-libc++/include"] ∧
      ccPlatformFlags t targetStr ndk major host sdk =
        ["--sysroot=" ++ ndk ++ "/sysroot",
         "-isystem" ++ ndk ++ "/sources/cxx-stl/llvm-libc++/include"]) ∧
    (22 ≤ major →
      bindgenPlatformFlags t targetStr ndk major host sdk =
        ["--sysroot=" ++ ndk ++ "/toolchains/llvm/prebuilt/" ++ host_tag host ++ "/sysroot"] ∧
      ccPlatformFlags t targetStr ndk major host sdk =
        ["--sysroot=" ++ ndk ++ "/toolchains/llvm/prebuilt/" ++ host_tag host ++ "/sysroot"]) ∧
    "--sysroot=" ++ ndk ++ "/sysroot" ≠
      "--sysroot=" ++ ndk ++ "/toolchains/llvm/prebuilt/" ++ host_tag host ++ "/sysroot" := by
  have hb : bindgenPlatformFlags t targetStr ndk major host sdk =
      androidBindgenFlags ndk major host := by
    simp only [bindgenPlatformFlags]; rw [if_pos h]
  have hc : ccPlatformFlags t targetStr ndk major host sdk =
      androidCcFlags ndk major host := by
    simp only [ccPlatformFlags]; rw [if_pos h]
  refine ⟨fun hm => ?_, fun hm => ?_, fun he => ?_⟩
  · rw [hb, hc]
    unfold androidBindgenFlags androidCcFlags
    rw [if_pos hm]
    exact ⟨rfl, rfl⟩
  · rw [hb, hc]
    unfold androidBindgenFlags androidCcFlags
    rw [if_neg (by omega)]
    exact ⟨rfl, rfl⟩
  · have hl := congrArg String.length he
    simp only [String.length_append] at hl
    have e1 : ("/sysroot" : String).length = 8 := rfl
    have e2 : ("/toolchains/llvm/prebuilt/" : String).length = 26 := rfl
    rw [e1, e2] at hl
    omega

/-- Witness for C1: the legacy shape at NDK major 21 on a linux host. -/
theorem android_sysroot_flags_witness :
    bindgenPlatformFlags ⟨"aarch64", "linux", "android", none⟩
        "aarch64-linux-android" "/ndk" 21 HostOs.linux none =
      ["--sysroot=" ++ "/ndk" ++ "/sysroot",
       "-isystem" ++ "/ndk" ++ "/sources/cxx-stl/llvm-libc++/include"] ∧
    ccPlatformFlags ⟨"aarch64", "linux", "android", none⟩
        "aarch64-linux-android" "/ndk" 21 HostOs.linux none =
      ["--sysroot=" ++ "/ndk" ++ "/sysroot",
       "-isystem" ++ "/ndk" ++ "/sources/cxx-stl/llvm-libc++/include"] :=
  (android_sysroot_flags _ _ _ _ _ _ (Or.inl rfl)).1 (by decide)

/-- C8: the android flag set handed to the generator and the one handed to
the compiler are identical lists (the two builder sites duplicate the same
classification), and in both shapes the first flag is the sysroot flag. -/
theorem android_flag_sets_agree (ndk : String) (major : Nat) (host : HostOs) :
    androidBindgenFlags ndk major host = androidCcFlags ndk major host ∧
    (androidBindgenFlags ndk major host).head? =
      some (if major < 22 then "--sysroot=" ++ ndk ++ "/sysroot"
            else "--sysroot=" ++ ndk ++ "/toolchains/llvm/prebuilt/" ++
              host_tag host ++ "/sysroot") := by
  unfold androidBindgenFlags androidCcFlags
  refine ⟨rfl, ?_⟩
  by_cases hm : major < 22
  · rw [if_pos hm, if_pos hm]; rfl
  · rw [if_neg hm, if_neg hm]; rfl


/-- C2: classifying "aarch64-apple-ios-sim" adds the ARM64-simulator floor
flag and rewrites the generator target to the fixed simulator triple;
classifying "aarch64-apple-ios" adds the device floor flag and passes the
target through unchanged as the generator --target argument. -/
theorem apple_sim_target_rewrite (sdk : Option String) :
    parseTarget "aarch64-apple-ios-sim" =
      some ⟨"aarch64", "apple", "ios", some "sim"⟩ ∧
    bindgenRootTarget "aarch64-apple-ios-sim" =
      some "arm64-apple-ios14.0.0-simulator" ∧
    "-mios-simulator-version-min=14.0" ∈
      appleBindgenFlags ⟨"aarch64", "apple", "ios", some "sim"⟩
        "aarch64-apple-ios-sim" sdk ∧
    "--target=arm64-apple-ios14.0.0-simulator" ∈
      appleBindgenFlags ⟨"aarch64", "apple", "ios", some "sim"⟩
        "aarch64-apple-ios-sim" sdk ∧
    parseTarget "aarch64-apple-ios" = some ⟨"aarch64", "apple", "ios", none⟩ ∧
    bindgenRootTarget "aarch64-apple-ios" = some "aarch64-apple-ios" ∧
    "-miphoneos-version-min=10.0" ∈
      appleBindgenFlags ⟨"aarch64", "apple", "ios", none⟩
        "aarch64-apple-ios" sdk ∧
    "--target=aarch64-apple-ios" ∈
      appleBindgenFlags ⟨"aarch64", "apple", "ios", none⟩
        "aarch64-apple-ios" sdk := by
  cases sdk <;>
    refine ⟨by decide, by decide, ?_, ?_, by decide, by decide, ?_, ?_⟩ <;>
    simp [appleBindgenFlags, add_bindgen_root, bindgenTargetArgs,
      bindgenRootTarget, sdkRootArgs, appleTailFlags]

/-- Witness for C2 with no resolved SDK root. -/
theorem apple_sim_target_rewrite_witness :
    "-mios-simulator-version-min=14.0" ∈
      appleBindgenFlags ⟨"aarch64", "apple", "ios", some "sim"⟩
        "aarch64-apple-ios-sim" none ∧
    "--target=arm64-apple-ios14.0.0-simulator" ∈
      appleBindgenFlags ⟨"aarch64", "apple", "ios", some "sim"⟩
        "aarch64-apple-ios-sim" none :=
  ⟨(apple_sim_target_rewrite none).2.2.1, (apple_sim_target_rewrite none).2.2.2.1⟩

/-- C7: with an empty static source-file list the driver emits the rerun
directive, writes an empty bindings file, and performs zero external-tool
invocations. -/
theorem empty_files_short_circuit (files : List String) (outDir : String)
    (genFlags compFlags : List String) (generated : String)
    (h : files = []) :
    driverEffects files outDir genFlags compFlags generated =
      [.emitDirective "cargo:rerun-if-changed=build.rs",
       .writeFile (bindingsPath outDir) ""] ∧
    (driverEffects files outDir genFlags compFlags generated).countP
      isToolInvocation = 0 := by
  subst h
  exact ⟨rfl, rfl⟩

/-- Witness for C7 with concrete paths and flag sets. -/
theorem empty_files_short_circuit_witness :
    driverEffects [] "/out" [] [] "" =
      [.emitDirective "cargo:rerun-if-changed=build.rs",
       .writeFile (bindingsPath "/out") ""] ∧
    (driverEffects [] "/out" [] [] "").countP isToolInvocation = 0 :=
  empty_files_short_circuit [] "/out" [] [] "" rfl

/-- C4 counterexample: "foo-bar-ios" has system "ios", so the classifier
routes it to SDK resolution, yet the resolver recognises no spelling for it
and its internal-consistency failure branch (the `unreachable!`) IS
reached, even when the external command would succeed. -/
theorem unrecognized_ios_descriptor_aborts :
    (parseTarget "foo-bar-ios").map Target.system = some "ios" ∧
    sdkName "foo-bar-ios" = none ∧
    sdk_path "foo-bar-ios" (CmdResult.ok "/sdk") = SdkOutcome.abort := by
  decide

/-- C4 amended: for the closed set of Apple target triples the Rust
toolchain actually uses, classification yields system "ios" or "darwin"
and the resolver recognises the spelling, so the failure branch is not
reached; descriptors outside that set can reach it. -/
theorem known_apple_triples_recognized (s : String)
    (h : s ∈ knownAppleTriples) :
    ((parseTarget s).map Target.system = some "ios" ∨
     (parseTarget s).map Target.system = some "darwin") ∧
    (sdkName s).isSome := by
  fin_cases h <;> decide

/-- Witness for the amended C4 at "aarch64-apple-ios". -/
theorem known_apple_triples_recognized_witness :
    ((parseTarget "aarch64-apple-ios").map Target.system = some "ios" ∨
     (parseTarget "aarch64-apple-ios").map Target.system = some "darwin") ∧
    (sdkName "aarch64-apple-ios").isSome :=
  known_apple_triples_recognized "aarch64-apple-ios" (by decide)


/-- C3 counterexample: non-UTF-8 output from the external command on a
recognised Apple target hits `expect("invalid output from xcrun")` and
aborts the build, so that failure mode is not a recoverable resolution
error. -/
theorem sdk_nonutf8_aborts :
    sdkName "aarch64-apple-ios" = some "iphoneos" ∧
    sdk_path "aarch64-apple-ios" CmdResult.nonUtf8 = SdkOutcome.abort ∧
    sdkResolution (sdk_path "aarch64-apple-ios" CmdResult.nonUtf8) = none := by
  decide

/-- C3 amended: for recognised Apple targets, failure to invoke the
external command is a recoverable resolution error (an Err the caller
drops to "no SDK root"); with no SDK root, no -isysroot flag appears in
either flag set, and the flag sets are otherwise exactly those of a
successful resolution. -/
theorem sdk_io_failure_recoverable (t : Target) (s p : String)
    (h : (sdkName s).isSome) :
    sdk_path s CmdResult.ioFailure = SdkOutcome.errReturned ∧
    sdkResolution (sdk_path s CmdResult.ioFailure) = some none ∧
    "-isysroot" ∉ appleBindgenFlags t s none ∧
    appleBindgenFlags t s (some p) =
      "-miphoneos-version-min=10.0" ::
        (bindgenTargetArgs s ++ ["-isysroot", p] ++ appleTailFlags t) ∧
    appleBindgenFlags t s none =
      "-miphoneos-version-min=10.0" :: (bindgenTargetArgs s ++ appleTailFlags t) ∧
    (∀ f ∈ add_cc_root none s, isPre "-isysroot".toList f.toList = false) ∧
    add_cc_root (some p) s = add_cc_root none s ++ ["-isysroot" ++ p] := by
  obtain ⟨k, hk⟩ := Option.isSome_iff_exists.mp h
  refine ⟨?_, ?_, ?_, ?_, ?_, ?_, ?_⟩
  · simp [sdk_path, hk]
  · simp [sdk_path, hk, sdkResolution]
  · simp only [appleBindgenFlags, add_bindgen_root, sdkRootArgs,
      List.append_nil, List.mem_append, List.mem_cons]
    rcases bindgenTargetArgs_cases s with h1 | h1 | h1 | h1 <;>
      rcases appleTailFlags_cases t with h2 | h2 | h2 <;>
      rw [h1, h2] <;> decide
  · simp [appleBindgenFlags, add_bindgen_root, sdkRootArgs]
  · simp [appleBindgenFlags, add_bindgen_root, sdkRootArgs]
  · rcases add_cc_root_none_cases s with h1 | h1 | h1 | h1 <;>
      rw [h1] <;> decide
  · unfold add_cc_root
    simp [List.append_assoc]

/-- Witness for the amended C3 at "aarch64-apple-ios". -/
theorem sdk_io_failure_recoverable_witness :
    sdk_path "aarch64-apple-ios" CmdResult.ioFailure = SdkOutcome.errReturned ∧
    "-isysroot" ∉ appleBindgenFlags ⟨"aarch64", "apple", "ios", none⟩
      "aarch64-apple-ios" none :=
  ⟨(sdk_io_failure_recoverable ⟨"aarch64", "apple", "ios", none⟩
      "aarch64-apple-ios" "/sdk" (by decide)).1,
   (sdk_io_failure_recoverable ⟨"aarch64", "apple", "ios", none⟩
      "aarch64-apple-ios" "/sdk" (by decide)).2.2.1⟩

/-- C9: for an ios-system descriptor the generator flag set contains the
device floor flag twice (once from the unconditional Apple-family push and
once from the ios sub-branch), and the ARM64-simulator variant receives
the simulator floor flag in addition, not instead. -/
theorem ios_device_floor_twice (t : Target) (s : String) (sdk : Option String)
    (hsys : t.system = "ios")
    (hsdk : ∀ p, sdk = some p → p ≠ "-miphoneos-version-min=10.0") :
    (appleBindgenFlags t s sdk).count "-miphoneos-version-min=10.0" = 2 ∧
    (t.abi = some "sim" → t.architecture = "aarch64" →
      "-mios-simulator-version-min=14.0" ∈ appleBindgenFlags t s sdk) := by
  have ht : (bindgenTargetArgs s).count "-miphoneos-version-min=10.0" = 0 := by
    rcases bindgenTargetArgs_cases s with h1 | h1 | h1 | h1 <;> rw [h1] <;> decide
  have hs : (sdkRootArgs sdk).count "-miphoneos-version-min=10.0" = 0 := by
    cases sdk with
    | none => rfl
    | some p =>
      have hp := hsdk p rfl
      simp [sdkRootArgs, List.count_cons, beq_iff_eq, hp]
  constructor
  · simp only [appleBindgenFlags, add_bindgen_root, List.count_append,
      List.count_cons, ht, hs]
    rw [appleTailFlags, if_pos hsys]
    by_cases h2 : t.abi = some "sim" ∧ t.architecture = "aarch64"
    · rw [if_pos h2]; decide
    · rw [if_neg h2]; decide
  · intro habi harch
    simp only [appleBindgenFlags, add_bindgen_root, List.mem_append,
      List.mem_cons]
    rw [appleTailFlags, if_pos hsys, if_pos ⟨habi, harch⟩]
    simp

/-- Witness for C9 at the ARM64 simulator descriptor with no SDK root. -/
theorem ios_device_floor_twice_witness :
    (appleBindgenFlags ⟨"aarch64", "apple", "ios", some "sim"⟩
      "aarch64-apple-ios-sim" none).count "-miphoneos-version-min=10.0" = 2 ∧
    "-mios-simulator-version-min=14.0" ∈
      appleBindgenFlags ⟨"aarch64", "apple", "ios", some "sim"⟩
        "aarch64-apple-ios-sim" none :=
  ⟨(ios_device_floor_twice ⟨"aarch64", "apple", "ios", some "sim"⟩
      "aarch64-apple-ios-sim" none rfl (fun _ hp => Option.noConfusion hp)).1,
   (ios_device_floor_twice ⟨"aarch64", "apple", "ios", some "sim"⟩
      "aarch64-apple-ios-sim" none rfl (fun _ hp => Option.noConfusion hp)).2
      rfl rfl⟩

end StbBuild
